import Mathlib

/-!
Verification of the Saillogger Signal K plugin (signalk-saillogger).

Shallow embedding of the plugin's core functions over ℚ (JavaScript
numbers modelled as rationals; transcendental functions sin/cos/acos and
the constant Math.PI are abstract parameters collected in `TrigCtx`).
JavaScript `null`/`undefined` values are modelled with `Option`.
-/

namespace Saillogger

/-- JavaScript Math.round: round half toward positive infinity. -/
def jsRound (q : ℚ) : ℚ := (⌊q + 1/2⌋ : ℤ)

/-- `radiantToDegrees(rad)`: null-checked radian→degree conversion,
rounded to one decimal. -/
def radiantToDegrees (rad : Option ℚ) : Option ℚ :=
  match rad with
  | none => none
  | some r => some (jsRound (r * 57.2958 * 10) / 10)

/-- `metersPerSecondToKnots(ms)`: null-checked m/s→knots conversion,
rounded to one decimal. -/
def metersPerSecondToKnots (ms : Option ℚ) : Option ℚ :=
  match ms with
  | none => none
  | some v => some (jsRound (v * 1.94384 * 10) / 10)

/-- `kelvinToCelsius(deg)`: null-checked Kelvin→Celsius conversion. -/
def kelvinToCelsius (deg : Option ℚ) : Option ℚ :=
  match deg with
  | none => none
  | some v => some (jsRound ((v - 273.15) * 10) / 10)

/-- `floatToPercentage(val)`: null-checked fraction→percentage. -/
def floatToPercentage (val : Option ℚ) : Option ℚ :=
  match val with
  | none => none
  | some v => some (v * 100)

/-- `pascalToHectoPascal(pa)`: null-checked Pa→hPa conversion. -/
def pascalToHectoPascal (pa : Option ℚ) : Option ℚ :=
  match pa with
  | none => none
  | some v => some (jsRound (v / 100 * 10) / 10)

/-- Abstract trigonometric context: `Math.PI`, `Math.sin`, `Math.cos`,
`Math.acos` are parameters of the embedding (their floating-point values
are not modelled; every theorem holds for arbitrary instantiations,
with explicitly stated hypotheses where a property of `cos` is used). -/
structure TrigCtx where
  pi : ℚ
  sin : ℚ → ℚ
  cos : ℚ → ℚ
  acos : ℚ → ℚ

/-- `calculateDistance(lat1, lon1, lat2, lon2)`: spherical law of cosines
distance in nautical miles, with the identical-coordinates short circuit
and the `dist > 1` clamp before `acos`. -/
def calculateDistance (c : TrigCtx) (lat1 lon1 lat2 lon2 : ℚ) : ℚ :=
  if lat1 = lat2 ∧ lon1 = lon2 then 0
  else
    let radlat1 := c.pi * lat1 / 180
    let radlat2 := c.pi * lat2 / 180
    let theta := lon1 - lon2
    let radtheta := c.pi * theta / 180
    let dist := c.sin radlat1 * c.sin radlat2 +
                c.cos radlat1 * c.cos radlat2 * c.cos radtheta
    let dist := if dist > 1 then 1 else dist
    let dist := c.acos dist
    let dist := dist * 180 / c.pi
    let dist := dist * 60 * 1.1515
    dist * 0.8684

/-- A row of the sqlite `buffer` table
`(ts, latitude, longitude, speedOverGround, courseOverGroundTrue,
windSpeedApparent, angleSpeedApparent)`. -/
structure Record where
  ts : ℚ
  latitude : ℚ
  longitude : ℚ
  speedOverGround : Option ℚ
  courseOverGroundTrue : Option ℚ
  windSpeedApparent : ℚ
  angleSpeedApparent : Option ℚ
deriving DecidableEq, Repr

/-- `DELETE FROM buffer where ts <= cursor`: rows with `ts ≤ cursor` are
removed, all other rows are kept in order. -/
def pruneUpTo (cursor : ℚ) (buf : List Record) : List Record :=
  buf.filter (fun r => !decide (r.ts ≤ cursor))

/-- The `position` module variable: an object with `latitude`,
`longitude` and a `changedOn` timestamp (`null` after a database
insert). -/
structure Pos where
  latitude : ℚ
  longitude : ℚ
  changedOn : Option ℚ
deriving DecidableEq, Repr

/-- The mutable module-level variables of the plugin closure that the
telemetry path reads and writes, plus the sqlite `buffer` table. -/
structure PluginState where
  updateLastCalled : ℚ
  position : Option Pos
  speedOverGround : Option ℚ
  maxSpeedOverGround : Option ℚ
  courseOverGroundTrue : Option ℚ
  windSpeedApparent : ℚ
  angleSpeedApparent : Option ℚ
  previousSpeeds : List ℚ
  previousCOGs : List ℚ
  buffer : List Record
deriving DecidableEq, Repr

/-- Observable side effects of one invocation: a buffer insert
(`db.run INSERT`) or an HTTP POST of the buffer to the server
(`submitDataToServer`'s `request`). -/
inductive Eff where
  | dbInsert (r : Record)
  | httpPush
  | httpGetConfig
deriving DecidableEq, Repr

/-- Whether an effect is the drain attempt (HTTP push of the buffer). -/
def Eff.isPush : Eff → Bool
  | .httpPush => true
  | _ => false

/-- Whether an effect is a buffer insert. -/
def Eff.isInsert : Eff → Bool
  | .dbInsert _ => true
  | _ => false

/-- JavaScript truthiness of `position.changedOn` (a number or null):
`!position.changedOn` is true for `null` and for `0`. -/
def changedOnFalsy : Option ℚ → Bool
  | none => true
  | some t => decide (t = 0)

/-- JavaScript `x >= t` where `x` may be `undefined` (`undefined >= t`
is false). -/
def jsGe (x : Option ℚ) (t : ℚ) : Bool :=
  match x with
  | none => false
  | some v => decide (v ≥ t)

/-- JavaScript `Math.max` over possibly-undefined operands
(`Math.max(undefined, x)` is `NaN`; `undefined`/`NaN` are both `none`). -/
def jsMax (a b : Option ℚ) : Option ℚ :=
  match a, b with
  | some x, some y => some (max x y)
  | _, _ => none

/-- `updateDatabase()`: records the call time in `updateLastCalled`;
if a position with a truthy `changedOn` is pending, inserts a row into
the buffer, resets the running wind/speed maxima and clears
`position.changedOn`. Returns the new state and the emitted effects. -/
def updateDatabase (now : ℚ) (s : PluginState) : PluginState × List Eff :=
  let s := { s with updateLastCalled := now }
  match s.position with
  | none => (s, [])
  | some p =>
    if changedOnFalsy p.changedOn then (s, [])
    else
      let r : Record :=
        { ts := p.changedOn.getD 0
          latitude := p.latitude
          longitude := p.longitude
          speedOverGround := s.maxSpeedOverGround
          courseOverGroundTrue := s.courseOverGroundTrue
          windSpeedApparent := s.windSpeedApparent
          angleSpeedApparent := s.angleSpeedApparent }
      ({ s with buffer := s.buffer ++ [r]
                windSpeedApparent := 0
                maxSpeedOverGround := some 0
                position := some { p with changedOn := none } },
       [Eff.dbInsert r])

/-- `MINIMUM_TURN_DEGREES` (current version). -/
def MINIMUM_TURN_DEGREES : ℚ := 45

/-- `SPEED_THRESHOLD` (knots). -/
def SPEED_THRESHOLD : ℚ := 1

/-- `MIN_DISTANCE` (miles). -/
def MIN_DISTANCE : ℚ := 0.5

/-- `DB_UPDATE_MINUTES`. -/
def DB_UPDATE_MINUTES : ℚ := 15

/-- `DB_UPDATE_MINUTES_MOVING`. -/
def DB_UPDATE_MINUTES_MOVING : ℚ := 5

/-- `vesselMadeSignificantTurn()`: true when the course window holds 6
samples and the newest-vs-oldest difference exceeds
`MINIMUM_TURN_DEGREES` in absolute value. The window `previousCOGs` has
the newest sample at index 0. -/
def vesselMadeSignificantTurn (previousCOGs : List ℚ) : Bool :=
  if previousCOGs.length < 6 then false
  else
    let delta := previousCOGs.getD 5 0 - previousCOGs.getD 0 0
    decide (|delta| > MINIMUM_TURN_DEGREES)

/-- `vesselSlowedDownOrSpeededUp(threshold)`: true when the current
speed is on one side of the threshold while every entry of
`previousSpeeds` is on the other side. -/
def vesselSlowedDownOrSpeededUp (threshold : ℚ)
    (speedOverGround : Option ℚ) (previousSpeeds : List ℚ) : Bool :=
  if (match speedOverGround with
      | some v => decide (v ≤ threshold)
      | none => false) &&
     previousSpeeds.all (fun el => decide (el > threshold)) then
    true
  else if (match speedOverGround with
           | some v => decide (v > threshold)
           | none => false) &&
          previousSpeeds.all (fun el => decide (el ≤ threshold)) then
    true
  else
    false

/-- One decoded delta dispatched by `processDelta`'s `switch` on the
update's path. -/
inductive DeltaEvent where
  | navPosition (source : Option String) (latitude longitude : ℚ)
  | navSpeedOverGround (v : ℚ)
  | navCourseOverGroundTrue (v : ℚ)
  | envWindSpeedApparent (v : ℚ)
  | envWindAngleApparent (v : ℚ)
deriving DecidableEq, Repr

/-- `processDelta(data)`: the per-delta handler. `now` is the wall-clock
time of the event (`Date.now()`), `gpsSource` the configured GPS source
filter. Returns the new state and the emitted effects. -/
def processDelta (c : TrigCtx) (gpsSource : Option String) (now : ℚ)
    (ev : DeltaEvent) (s : PluginState) : PluginState × List Eff :=
  let timePassed := now - s.updateLastCalled
  match ev with
  | .navPosition source lat lon =>
    if (match gpsSource with
        | some g => decide (source ≠ some g)
        | none => false) then
      (s, [])
    else
      match s.position with
      | some p =>
        let distance := calculateDistance c p.latitude p.longitude lat lon
        let timeBetweenPositions := now - p.changedOn.getD 0
        if timeBetweenPositions ≤ 2 * 60 * 1000 ∧ distance ≥ 5 then
          (s, [])
        else
          let s := { s with position := some { p with changedOn := some now } }
          if timePassed ≥ 60 * 1000 then
            if timePassed ≥ DB_UPDATE_MINUTES * 60 * 1000 then
              updateDatabase now
                { s with position := some ⟨lat, lon, some now⟩ }
            else if jsGe s.speedOverGround SPEED_THRESHOLD &&
                    decide (timePassed ≥ DB_UPDATE_MINUTES_MOVING * 60 * 1000) then
              updateDatabase now
                { s with position := some ⟨lat, lon, some now⟩ }
            else if distance ≥ MIN_DISTANCE then
              updateDatabase now
                { s with position := some ⟨lat, lon, some now⟩ }
            else if jsGe s.speedOverGround SPEED_THRESHOLD &&
                    vesselMadeSignificantTurn s.previousCOGs then
              updateDatabase now
                { s with position := some ⟨lat, lon, some now⟩ }
            else if vesselSlowedDownOrSpeededUp SPEED_THRESHOLD
                      s.speedOverGround s.previousSpeeds ||
                    vesselSlowedDownOrSpeededUp (SPEED_THRESHOLD * 2)
                      s.speedOverGround s.previousSpeeds ||
                    vesselSlowedDownOrSpeededUp (SPEED_THRESHOLD * 3)
                      s.speedOverGround s.previousSpeeds then
              updateDatabase now
                { s with position := some ⟨lat, lon, some now⟩ }
            else
              (s, [])
          else
            (s, [])
      | none =>
        ({ s with position := some ⟨lat, lon, some now⟩ }, [])
  | .navSpeedOverGround v =>
    let sog := metersPerSecondToKnots (some v)
    ({ s with speedOverGround := sog
              maxSpeedOverGround := jsMax s.maxSpeedOverGround sog
              previousSpeeds := ((sog.getD 0) :: s.previousSpeeds).take 3 },
     [])
  | .navCourseOverGroundTrue v =>
    let cog := radiantToDegrees (some v)
    ({ s with courseOverGroundTrue := cog
              previousCOGs := ((cog.getD 0) :: s.previousCOGs).take 6 },
     [])
  | .envWindSpeedApparent v =>
    ({ s with windSpeedApparent :=
        (jsMax (some s.windSpeedApparent) (metersPerSecondToKnots (some v))).getD 0 },
     [])
  | .envWindAngleApparent v =>
    ({ s with angleSpeedApparent := radiantToDegrees (some v) }, [])

/-- Effects of one firing of the `submitProcess` interval timer: it
calls `submitDataToServer`, whose outgoing action is the HTTP push of
the buffered rows. -/
def submitTimerTickEffs : List Eff := [Eff.httpPush]

/-- Effects of the success branch of the `sendMetadata` request
callback: it calls `getMonitoringConfiguration()` and
`submitDataToServer()`. -/
def sendMetadataSuccessEffs : List Eff := [Eff.httpGetConfig, Eff.httpPush]

/-- Fold `processDelta` over a timestamped event trace, returning the
wall-clock times of the events at which a buffer insert was emitted. -/
def runInserts (c : TrigCtx) (gpsSource : Option String) :
    List (ℚ × DeltaEvent) → PluginState → List ℚ
  | [], _ => []
  | (t, ev) :: rest, s =>
    (if (processDelta c gpsSource t ev s).2.any Eff.isInsert then [t] else []) ++
    runInserts c gpsSource rest (processDelta c gpsSource t ev s).1

/-- One `refreshAisData` update of an already-cached AIS target whose
position timestamp changed: the post-increment test
`aisTarget[mmsi].counter++ == 30` reads the old counter, increments,
and on a hit resets the counter and attaches the rich vessel detail.
Returns the new counter and whether the detail was attached. -/
def aisUpdateStep (counter : ℕ) : ℕ × Bool :=
  if counter = 30 then (0, true) else (counter + 1, false)

/-- The cached counter after `n` consecutive updates following the
target's insertion (insertion stores `counter = 0`). -/
def aisCounterAfter : ℕ → ℕ
  | 0 => 0
  | n + 1 => (aisUpdateStep (aisCounterAfter n)).1

/-- Whether the rich vessel detail is attached on update number `n`
(counting from 1) after the target's insertion. -/
def aisDetailOn (n : ℕ) : Bool := (aisUpdateStep (aisCounterAfter (n - 1))).2

/-- The `request` callback arguments of `submitDataToServer`: transport
error flag, HTTP status, and the parsed `processedUntil` cursor of the
response body (`none` when the body does not parse or lacks the field,
in which case `body.processedUntil` is `undefined`). -/
structure PushResponse where
  error : Bool
  statusCode : ℕ
  processedUntil : Option ℚ
deriving DecidableEq, Repr

/-- The `submitDataToServer` response callback acting on the buffer and
on `lastSuccessfulUpdate`. On HTTP 200 it runs
`DELETE FROM buffer where ts <= body.processedUntil` and stamps
`lastSuccessfulUpdate = Date.now()`; with an undefined cursor the
interpolated SQL (`ts <= undefined`) fails and removes no rows, but the
timestamp is stamped regardless. HTTP 204 and all failures only log. -/
def submitResponseHandler (resp : PushResponse) (now : ℚ)
    (buffer : List Record) (lastSuccessfulUpdate : Option ℚ) :
    List Record × Option ℚ :=
  if !resp.error && decide (resp.statusCode = 200) then
    match resp.processedUntil with
    | some cursor => (pruneUpTo cursor buffer, some now)
    | none => (buffer, some now)
  else
    (buffer, lastSuccessfulUpdate)

/-- The module state at plugin start (`updateLastCalled = Date.now()`
at load time, taken as parameter; everything else unset/empty), used to
instantiate theorems at concrete inputs. -/
def initialState (t0 : ℚ) : PluginState where
  updateLastCalled := t0
  position := none
  speedOverGround := none
  maxSpeedOverGround := none
  courseOverGroundTrue := none
  windSpeedApparent := 0
  angleSpeedApparent := none
  previousSpeeds := []
  previousCOGs := []
  buffer := []

/-!
## Theorems
-/

/-- C1: after `PruneUpTo(cursor)` the buffer count decreases by exactly
the number of records with `ts ≤ cursor`, and the records with
`ts > cursor` remain in the buffer, in order, unchanged. -/
theorem pruneUpTo_count_and_untouched (cursor : ℚ) (buf : List Record) :
    buf.length = (pruneUpTo cursor buf).length +
      (buf.filter (fun r => decide (r.ts ≤ cursor))).length ∧
    pruneUpTo cursor buf = buf.filter (fun r => decide (cursor < r.ts)) := by
  constructor
  · induction buf with
    | nil => simp [pruneUpTo]
    | cons a l ih =>
      by_cases h : a.ts ≤ cursor <;>
        simp [pruneUpTo, List.filter_cons, h] at ih ⊢ <;> omega
  · refine List.filter_congr (fun r _ => ?_)
    by_cases h : r.ts ≤ cursor
    · simp [h, not_lt.mpr h]
    · simp [h, lt_of_not_le h]

/-- C8: `calculateDistance` short-circuits to 0 on identical coordinates
and is symmetric in its two positions, for every instantiation of the
abstract trigonometric context whose cosine is an even function. -/
theorem calculateDistance_zero_and_symm (c : TrigCtx)
    (hcos : ∀ x, c.cos (-x) = c.cos x) (lat1 lon1 lat2 lon2 : ℚ) :
    calculateDistance c lat1 lon1 lat1 lon1 = 0 ∧
    calculateDistance c lat1 lon1 lat2 lon2 =
      calculateDistance c lat2 lon2 lat1 lon1 := by
  refine ⟨by simp [calculateDistance], ?_⟩
  by_cases h : lat1 = lat2 ∧ lon1 = lon2
  · simp [calculateDistance, h.1, h.2]
  · have h' : ¬(lat2 = lat1 ∧ lon2 = lon1) := fun hh => h ⟨hh.1.symm, hh.2.symm⟩
    have hθ : c.pi * (lon1 - lon2) / 180 = -(c.pi * (lon2 - lon1) / 180) := by
      ring
    have hd : c.sin (c.pi * lat1 / 180) * c.sin (c.pi * lat2 / 180) +
        c.cos (c.pi * lat1 / 180) * c.cos (c.pi * lat2 / 180) *
          c.cos (c.pi * (lon1 - lon2) / 180) =
        c.sin (c.pi * lat2 / 180) * c.sin (c.pi * lat1 / 180) +
        c.cos (c.pi * lat2 / 180) * c.cos (c.pi * lat1 / 180) *
          c.cos (c.pi * (lon2 - lon1) / 180) := by
      rw [hθ, hcos]; ring
    simp only [calculateDistance, if_neg h, if_neg h']
    rw [hd]

/-- Witness for C8: the theorem applied at a concrete trigonometric
context (with a constant, hence even, cosine) and concrete coordinates. -/
theorem calculateDistance_zero_and_symm_witness :
    calculateDistance ⟨3, fun x => x, fun _ => 1, fun x => x⟩ 10 20 10 20 = 0 ∧
    calculateDistance ⟨3, fun x => x, fun _ => 1, fun x => x⟩ 10 20 30 40 =
      calculateDistance ⟨3, fun x => x, fun _ => 1, fun x => x⟩ 30 40 10 20 :=
  calculateDistance_zero_and_symm ⟨3, fun x => x, fun _ => 1, fun x => x⟩
    (fun _ => rfl) 10 20 30 40

/-- C9: every unit-conversion helper is total over optional inputs: a
missing (null) input yields null, and a present numeric input yields a
present numeric result. -/
theorem conversions_total :
    (radiantToDegrees none = none ∧
      ∀ x : ℚ, ∃ y : ℚ, radiantToDegrees (some x) = some y) ∧
    (metersPerSecondToKnots none = none ∧
      ∀ x : ℚ, ∃ y : ℚ, metersPerSecondToKnots (some x) = some y) ∧
    (kelvinToCelsius none = none ∧
      ∀ x : ℚ, ∃ y : ℚ, kelvinToCelsius (some x) = some y) ∧
    (floatToPercentage none = none ∧
      ∀ x : ℚ, ∃ y : ℚ, floatToPercentage (some x) = some y) ∧
    (pascalToHectoPascal none = none ∧
      ∀ x : ℚ, ∃ y : ℚ, pascalToHectoPascal (some x) = some y) :=
  ⟨⟨rfl, fun _ => ⟨_, rfl⟩⟩, ⟨rfl, fun _ => ⟨_, rfl⟩⟩, ⟨rfl, fun _ => ⟨_, rfl⟩⟩,
   ⟨rfl, fun _ => ⟨_, rfl⟩⟩, ⟨rfl, fun _ => ⟨_, rfl⟩⟩⟩

/-- C10: a position fix enters the buffer at most once: when the stored
position is absent or its `changedOn` marker is cleared the buffer is
left unchanged and nothing is inserted; a successful insert appends one
row carrying the fix's `changedOn` timestamp and clears the marker; and
a second consecutive `updateDatabase` call never inserts again. -/
theorem updateDatabase_insert_at_most_once (now now2 : ℚ) (s : PluginState) :
    (s.position = none →
      (updateDatabase now s).1.buffer = s.buffer ∧ (updateDatabase now s).2 = []) ∧
    (∀ p, s.position = some p → p.changedOn = none →
      (updateDatabase now s).1.buffer = s.buffer ∧ (updateDatabase now s).2 = []) ∧
    (∀ p t, s.position = some p → p.changedOn = some t → t ≠ 0 →
      (updateDatabase now s).1.position = some { p with changedOn := none } ∧
      ∃ r, (updateDatabase now s).1.buffer = s.buffer ++ [r] ∧ r.ts = t) ∧
    (updateDatabase now2 (updateDatabase now s).1).1.buffer =
      (updateDatabase now s).1.buffer := by
  refine ⟨?_, ?_, ?_, ?_⟩
  · intro h
    simp [updateDatabase, h]
  · intro p hp hc
    simp [updateDatabase, hp, hc, changedOnFalsy]
  · intro p t hp hc ht
    constructor
    · simp [updateDatabase, hp, hc, changedOnFalsy, ht]
    · exact ⟨{ ts := t, latitude := p.latitude, longitude := p.longitude,
               speedOverGround := s.maxSpeedOverGround,
               courseOverGroundTrue := s.courseOverGroundTrue,
               windSpeedApparent := s.windSpeedApparent,
               angleSpeedApparent := s.angleSpeedApparent },
             by simp [updateDatabase, hp, hc, changedOnFalsy, ht], rfl⟩
  · rcases hs : s.position with _ | p
    · simp [updateDatabase, hs]
    · rcases hc : p.changedOn with _ | t
      · simp [updateDatabase, hs, hc, changedOnFalsy]
      · by_cases ht : t = 0
        · simp [updateDatabase, hs, hc, changedOnFalsy, ht]
        · simp [updateDatabase, hs, hc, changedOnFalsy, ht]

/-- Witness for C10 at a concrete state holding a pending fix. -/
theorem updateDatabase_insert_at_most_once_witness :
    (updateDatabase 7
        { initialState 0 with position := some ⟨1, 2, some 5⟩ }).1.position =
      some ⟨1, 2, none⟩ ∧
    ∃ r, (updateDatabase 7
        { initialState 0 with position := some ⟨1, 2, some 5⟩ }).1.buffer =
      (initialState 0).buffer ++ [r] ∧ r.ts = 5 :=
  (updateDatabase_insert_at_most_once 7 8 _).2.2.1 ⟨1, 2, some 5⟩ 5 rfl rfl
    (by norm_num)

/-- C2: the anomaly guard — when a previous position exists and the new
fix lies ≥ 5 nautical miles away while the elapsed time since the
previous fix (`Date.now() - position.changedOn`) is ≤ 2 minutes,
`processDelta` rejects the update: the state, including the stored
position and its `changedOn` timestamp, is unchanged and no record is
persisted. -/
theorem anomaly_guard_rejects (c : TrigCtx) (g : Option String)
    (now lat lon : ℚ) (src : Option String) (s : PluginState) (p : Pos)
    (hp : s.position = some p)
    (ht : now - p.changedOn.getD 0 ≤ 2 * 60 * 1000)
    (hd : calculateDistance c p.latitude p.longitude lat lon ≥ 5) :
    processDelta c g now (.navPosition src lat lon) s = (s, []) := by
  simp only [processDelta, hp]
  split
  · rfl
  · rw [if_pos ⟨ht, hd⟩]

/-- Witness for C2: a concrete jump of about 600 modelled nautical
miles within one minute is rejected and leaves the state untouched. -/
theorem anomaly_guard_rejects_witness :
    processDelta ⟨180, fun _ => 0, fun _ => 0, fun _ => 10⟩ none 60000
      (.navPosition none 1 1)
      { initialState 0 with position := some ⟨0, 0, some 0⟩ } =
    ({ initialState 0 with position := some ⟨0, 0, some 0⟩ }, []) :=
  anomaly_guard_rejects ⟨180, fun _ => 0, fun _ => 0, fun _ => 10⟩ none
    60000 1 1 none _ ⟨0, 0, some 0⟩ rfl (by norm_num)
    (by norm_num [calculateDistance])

/-- C3: the speed-band trigger fires exactly when the current speed is
on one side of the band threshold while every entry of the speed window
is uniformly on the other side; a window containing entries on both
sides of the threshold (a single outlier) never triggers. -/
theorem speed_band_trigger (t sog : ℚ) (w : List ℚ) :
    (vesselSlowedDownOrSpeededUp t (some sog) w = true ↔
      (sog ≤ t ∧ ∀ el ∈ w, t < el) ∨ (t < sog ∧ ∀ el ∈ w, el ≤ t)) ∧
    ((∃ a ∈ w, a ≤ t) → (∃ b ∈ w, t < b) →
      vesselSlowedDownOrSpeededUp t (some sog) w = false) := by
  have heq : vesselSlowedDownOrSpeededUp t (some sog) w =
      ((decide (sog ≤ t) && w.all fun el => decide (el > t)) ||
       (decide (sog > t) && w.all fun el => decide (el ≤ t))) := by
    unfold vesselSlowedDownOrSpeededUp
    cases h1 : (decide (sog ≤ t) && w.all fun el => decide (el > t)) <;>
      cases h2 : (decide (sog > t) && w.all fun el => decide (el ≤ t)) <;>
      simp [h1, h2]
  have hmain : vesselSlowedDownOrSpeededUp t (some sog) w = true ↔
      (sog ≤ t ∧ ∀ el ∈ w, t < el) ∨ (t < sog ∧ ∀ el ∈ w, el ≤ t) := by
    rw [heq]
    simp [List.all_eq_true, gt_iff_lt]
  refine ⟨hmain, ?_⟩
  rintro ⟨a, ha, hat⟩ ⟨b, hb, hbt⟩
  by_contra hne
  have hf : vesselSlowedDownOrSpeededUp t (some sog) w = true := by
    cases hbool : vesselSlowedDownOrSpeededUp t (some sog) w
    · exact absurd hbool hne
    · rfl
  rcases hmain.mp hf with ⟨_, hall⟩ | ⟨_, hall⟩
  · exact absurd (hall a ha) (not_lt.mpr hat)
  · exact absurd (hall b hb) (not_le.mpr hbt)

/-- Witness for C3: a confirmed slow-down across the band does trigger,
and the same window with a single outlier on the current side does not. -/
theorem speed_band_trigger_witness :
    vesselSlowedDownOrSpeededUp 1 (some (1/2)) [2, 2, 2] = true ∧
    vesselSlowedDownOrSpeededUp 1 (some (1/2)) [2, 1/2, 2] = false :=
  ⟨(speed_band_trigger 1 (1/2) [2, 2, 2]).1.mpr
      (Or.inl ⟨by norm_num, by norm_num [List.forall_mem_cons]⟩),
   (speed_band_trigger 1 (1/2) [2, 1/2, 2]).2
      ⟨1/2, by simp, by norm_num⟩ ⟨2, by simp, by norm_num⟩⟩

/-- C5 counterexample: because `counter++ == 30` compares the counter
before incrementing, the rich detail is NOT attached on update #30
after insertion, and IS attached on update #31. -/
theorem aisDetail_thirty_counterexample :
    aisDetailOn 30 = false ∧ aisDetailOn 31 = true := by decide

/-- C5 (amended): the rich vessel detail is attached exactly on every
31st update after insertion — on updates #31 and #62 when the target is
updated on 62 consecutive refresh passes — and omitted on every other
update. -/
theorem aisDetail_every_31st (n : ℕ) :
    aisDetailOn (n + 1) = true ↔ (n + 1) % 31 = 0 := by
  have hc : ∀ m, aisCounterAfter m = m % 31 := by
    intro m
    induction m with
    | zero => rfl
    | succ k ih =>
      simp only [aisCounterAfter, aisUpdateStep, ih]
      by_cases h : k % 31 = 30 <;> simp [h] <;> omega
  simp only [aisDetailOn, Nat.add_sub_cancel, hc, aisUpdateStep]
  by_cases h : n % 31 = 30 <;> simp [h] <;> omega

/-- C6 counterexample: an HTTP-200 response with an unparseable
`processedUntil` leaves the buffer alone but advances
`lastSuccessfulUpdate` to the current time, while the network-failure
case leaves the timestamp unchanged — the two are not treated
identically. -/
theorem malformed_response_counterexample :
    submitResponseHandler ⟨false, 200, none⟩ 999 [] none = ([], some 999) ∧
    submitResponseHandler ⟨true, 0, none⟩ 999 [] none = ([], none) ∧
    (some (999 : ℚ)) ≠ (none : Option ℚ) :=
  ⟨rfl, rfl, by simp⟩

/-- C6 (amended): on a network error or a non-200 status the buffer and
`lastSuccessfulUpdate` are both left unchanged; on an HTTP-200 response
whose `processedUntil` cursor cannot be parsed no record is deleted
(the interpolated SQL fails), but — unlike a network failure —
`lastSuccessfulUpdate` is still advanced to the current time. -/
theorem transient_failure_buffer_untouched (resp : PushResponse) (now : ℚ)
    (buf : List Record) (lsu : Option ℚ) :
    (resp.error = true ∨ resp.statusCode ≠ 200 →
      submitResponseHandler resp now buf lsu = (buf, lsu)) ∧
    (resp.error = false → resp.statusCode = 200 → resp.processedUntil = none →
      submitResponseHandler resp now buf lsu = (buf, some now)) := by
  constructor
  · intro h
    unfold submitResponseHandler
    rcases h with h | h <;> simp [h]
  · intro he hs hp
    unfold submitResponseHandler
    simp [he, hs, hp]

/-- Witness for C6 (amended) at a concrete failed response and a
concrete malformed HTTP-200 response. -/
theorem transient_failure_buffer_untouched_witness :
    submitResponseHandler ⟨true, 500, none⟩ 7 [] (some 3) = ([], some 3) ∧
    submitResponseHandler ⟨false, 200, none⟩ 7 [] (some 3) = ([], some 7) :=
  ⟨(transient_failure_buffer_untouched ⟨true, 500, none⟩ 7 [] (some 3)).1
      (Or.inl rfl),
   (transient_failure_buffer_untouched ⟨false, 200, none⟩ 7 [] (some 3)).2
      rfl rfl rfl⟩

/-- Helper: `updateDatabase` never emits an HTTP push and always stamps
`updateLastCalled` with its call time. -/
theorem updateDatabase_no_push_stamps (now : ℚ) (s : PluginState) :
    (updateDatabase now s).2.any Eff.isPush = false ∧
    (updateDatabase now s).1.updateLastCalled = now := by
  rcases hs : s.position with _ | p
  · simp [updateDatabase, hs]
  · by_cases hc : changedOnFalsy p.changedOn = true
    · simp [updateDatabase, hs, hc]
    · simp [updateDatabase, hs, hc, Eff.isPush]

/-- Helper: one `processDelta` step only inserts when at least 60
seconds passed since `updateLastCalled`, stamps `updateLastCalled` on
insert, otherwise keeps it or stamps it, and never emits an HTTP push. -/
theorem processDelta_step_bounds (c : TrigCtx) (g : Option String) (now : ℚ)
    (ev : DeltaEvent) (s : PluginState) :
    ((processDelta c g now ev s).2.any Eff.isInsert = true →
      now - s.updateLastCalled ≥ 60 * 1000 ∧
      (processDelta c g now ev s).1.updateLastCalled = now) ∧
    ((processDelta c g now ev s).1.updateLastCalled = s.updateLastCalled ∨
     (processDelta c g now ev s).1.updateLastCalled = now) ∧
    ((processDelta c g now ev s).2.any Eff.isPush = false) := by
  cases ev with
  | navPosition src lat lon =>
    simp only [processDelta]
    split
    · exact ⟨fun h => absurd h (by simp), Or.inl rfl, rfl⟩
    · split
      · split
        · exact ⟨fun h => absurd h (by simp), Or.inl rfl, rfl⟩
        · split
          · next h60 =>
            split
            · exact ⟨fun _ => ⟨h60, (updateDatabase_no_push_stamps _ _).2⟩,
                Or.inr (updateDatabase_no_push_stamps _ _).2,
                (updateDatabase_no_push_stamps _ _).1⟩
            · split
              · exact ⟨fun _ => ⟨h60, (updateDatabase_no_push_stamps _ _).2⟩,
                  Or.inr (updateDatabase_no_push_stamps _ _).2,
                  (updateDatabase_no_push_stamps _ _).1⟩
              · split
                · exact ⟨fun _ => ⟨h60, (updateDatabase_no_push_stamps _ _).2⟩,
                    Or.inr (updateDatabase_no_push_stamps _ _).2,
                    (updateDatabase_no_push_stamps _ _).1⟩
                · split
                  · exact ⟨fun _ => ⟨h60, (updateDatabase_no_push_stamps _ _).2⟩,
                      Or.inr (updateDatabase_no_push_stamps _ _).2,
                      (updateDatabase_no_push_stamps _ _).1⟩
                  · split
                    · exact ⟨fun _ => ⟨h60, (updateDatabase_no_push_stamps _ _).2⟩,
                        Or.inr (updateDatabase_no_push_stamps _ _).2,
                        (updateDatabase_no_push_stamps _ _).1⟩
                    · exact ⟨fun h => absurd h (by simp), Or.inl rfl, rfl⟩
          · exact ⟨fun h => absurd h (by simp), Or.inl rfl, rfl⟩
      · exact ⟨fun h => absurd h (by simp), Or.inl rfl, rfl⟩
  | navSpeedOverGround v =>
    exact ⟨fun h => absurd h (by simp [processDelta]), Or.inl rfl, rfl⟩
  | navCourseOverGroundTrue v =>
    exact ⟨fun h => absurd h (by simp [processDelta]), Or.inl rfl, rfl⟩
  | envWindSpeedApparent v =>
    exact ⟨fun h => absurd h (by simp [processDelta]), Or.inl rfl, rfl⟩
  | envWindAngleApparent v =>
    exact ⟨fun h => absurd h (by simp [processDelta]), Or.inl rfl, rfl⟩

/-- C4 counterexample: a concrete position event appends a record to
the buffer yet emits no HTTP push — the successful append is not
followed by a drain attempt. -/
theorem append_no_drain_counterexample :
    ((processDelta ⟨180, fun _ => 0, fun _ => 0, fun _ => 10⟩ none 1000000
        (.navPosition none 1 1)
        { initialState 0 with position := some ⟨0, 0, some 0⟩ }).2.any
      Eff.isInsert = true) ∧
    ((processDelta ⟨180, fun _ => 0, fun _ => 0, fun _ => 10⟩ none 1000000
        (.navPosition none 1 1)
        { initialState 0 with position := some ⟨0, 0, some 0⟩ }).2.any
      Eff.isPush = false) := by
  norm_num [processDelta, updateDatabase, initialState, calculateDistance,
    changedOnFalsy, DB_UPDATE_MINUTES, Eff.isInsert, Eff.isPush]

/-- C4 (amended): a successful append does not itself trigger a drain:
neither `updateDatabase` nor any `processDelta` event emits an HTTP
push. Drain attempts are made by the periodic `submitProcess` timer and
by the success callback of the metadata publication. -/
theorem append_not_followed_by_drain (c : TrigCtx) (g : Option String)
    (now : ℚ) (ev : DeltaEvent) (s : PluginState) :
    ((updateDatabase now s).2.any Eff.isPush = false) ∧
    ((processDelta c g now ev s).2.any Eff.isPush = false) ∧
    (submitTimerTickEffs.any Eff.isPush = true) ∧
    (sendMetadataSuccessEffs.any Eff.isPush = true) :=
  ⟨(updateDatabase_no_push_stamps now s).1,
   (processDelta_step_bounds c g now ev s).2.2, rfl, rfl⟩

/-- Helper: along a time-sorted trace starting at or after
`updateLastCalled`, every insert happens at least 60 seconds after the
state's initial `updateLastCalled`. -/
theorem runInserts_lower_bound (c : TrigCtx) (g : Option String) :
    ∀ (trace : List (ℚ × DeltaEvent)) (s : PluginState),
      List.Pairwise (fun a b => a ≤ b) (trace.map Prod.fst) →
      (∀ t ∈ trace.map Prod.fst, s.updateLastCalled ≤ t) →
      ∀ x ∈ runInserts c g trace s, s.updateLastCalled + 60 * 1000 ≤ x := by
  intro trace
  induction trace with
  | nil =>
    intro s _ _ x hx
    simp [runInserts] at hx
  | cons head rest ih =>
    obtain ⟨t, ev⟩ := head
    intro s hpw hstart x hx
    rw [List.map_cons, List.pairwise_cons] at hpw
    obtain ⟨hhead, hpw'⟩ := hpw
    have hstep := processDelta_step_bounds c g t ev s
    have hUt : s.updateLastCalled ≤ t := hstart t (List.mem_cons_self _ _)
    have hstart' : ∀ u ∈ rest.map Prod.fst,
        (processDelta c g t ev s).1.updateLastCalled ≤ u := by
      intro u hu
      rcases hstep.2.1 with h | h
      · rw [h]; exact hstart u (List.mem_cons_of_mem _ hu)
      · rw [h]; exact hhead u hu
    simp only [runInserts, List.mem_append] at hx
    rcases hx with hx | hx
    · by_cases hins : (processDelta c g t ev s).2.any Eff.isInsert = true
      · rw [if_pos hins] at hx
        have hxt : x = t := by simpa using hx
        subst hxt
        have h60 := (hstep.1 hins).1
        linarith
      · rw [if_neg hins] at hx
        exact absurd hx (by simp)
    · have hx' := ih (processDelta c g t ev s).1 hpw' hstart' x hx
      rcases hstep.2.1 with h | h
      · rw [h] at hx'
        exact hx'
      · rw [h] at hx'
        linarith

/-- C7: along any trace of delta events whose wall-clock times are
non-decreasing and start no earlier than the state's
`updateLastCalled`, no two evaluation-driven buffer inserts occur less
than 60 seconds apart, regardless of which trigger rule fired. -/
theorem evaluation_persists_rate_limited (c : TrigCtx) (g : Option String)
    (trace : List (ℚ × DeltaEvent)) (s : PluginState)
    (hpw : List.Pairwise (fun a b => a ≤ b) (trace.map Prod.fst))
    (hstart : ∀ t ∈ trace.map Prod.fst, s.updateLastCalled ≤ t) :
    List.Pairwise (fun a b => a + 60 * 1000 ≤ b) (runInserts c g trace s) := by
  induction trace generalizing s with
  | nil => simp [runInserts]
  | cons head rest ih =>
    obtain ⟨t, ev⟩ := head
    rw [List.map_cons, List.pairwise_cons] at hpw
    obtain ⟨hhead, hpw'⟩ := hpw
    have hstep := processDelta_step_bounds c g t ev s
    have hstart' : ∀ u ∈ rest.map Prod.fst,
        (processDelta c g t ev s).1.updateLastCalled ≤ u := by
      intro u hu
      rcases hstep.2.1 with h | h
      · rw [h]; exact hstart u (List.mem_cons_of_mem _ hu)
      · rw [h]; exact hhead u hu
    simp only [runInserts]
    by_cases hins : (processDelta c g t ev s).2.any Eff.isInsert = true
    · rw [if_pos hins, List.singleton_append, List.pairwise_cons]
      constructor
      · intro b hb
        have hb' := runInserts_lower_bound c g rest _ hpw' hstart' b hb
        rw [(hstep.1 hins).2] at hb'
        exact hb'
      · exact ih _ hpw' hstart'
    · rw [if_neg hins, List.nil_append]
      exact ih _ hpw' hstart'

/-- Witness for C7: the theorem applied to a concrete two-event trace. -/
theorem evaluation_persists_rate_limited_witness :
    List.Pairwise (fun a b => a + 60 * 1000 ≤ b)
      (runInserts ⟨180, fun _ => 0, fun _ => 0, fun _ => 10⟩ none
        [(100000, .navPosition none 1 1), (200000, .navPosition none 2 2)]
        { initialState 0 with position := some ⟨0, 0, some 0⟩ }) :=
  evaluation_persists_rate_limited ⟨180, fun _ => 0, fun _ => 0, fun _ => 10⟩
    none [(100000, .navPosition none 1 1), (200000, .navPosition none 2 2)]
    { initialState 0 with position := some ⟨0, 0, some 0⟩ }
    (by norm_num [List.pairwise_cons])
    (by norm_num [initialState, List.forall_mem_cons])

end Saillogger
